import Mathlib

/-!
Shallow embedding of the gesture-driven scene-mode state machine and particle
interaction engine of the holiday-experience application
(`src/christmas/components/Experience.tsx`, the hand-tracking service and the
enclosing app shell).

Numeric quantities are modelled as exact rationals: every comparison and
arithmetic combination the embedded code performs is rational, so the model
stays computable and decidable on concrete inputs.  The hand-tracking service
compares Euclidean distances (`Math.hypot`) against nonnegative thresholds;
since `hypot d < t` iff `d.x^2 + d.y^2 < t^2` for `t ≥ 0`, distances are
carried as their squares (which are rational), with thresholds squared
accordingly.
-/

namespace Christmas

/-- Scene modes, from `types.ts` (`AppMode`). -/
inductive AppMode
  | TREE
  | SCATTER
  | FOCUS
deriving DecidableEq, Repr

/-- Gesture labels, from `types.ts` (`HandData.gesture`). -/
inductive Gesture
  | OPEN
  | CLOSED
  | PINCH
  | NONE
deriving DecidableEq, Repr

/-- A hand sample, from `types.ts` (`HandData`). -/
structure HandData where
  x : ℚ
  y : ℚ
  gesture : Gesture
  pinchDistance : ℚ
deriving DecidableEq, Repr

/-- Particle type tags, from `types.ts` (`ParticleType`). -/
inductive ParticleType
  | SPHERE
  | CUBE
  | TRIANGLE
  | GIFT
  | SOCK
  | BELL
  | TIE
  | TREE
  | SANTA
  | PHOTO
deriving DecidableEq, Repr

/-- A 3D vector with rational coordinates (models `THREE.Vector3`). -/
structure Vec3 where
  x : ℚ
  y : ℚ
  z : ℚ
deriving DecidableEq, Repr

/-- One particle record as pushed onto the `particles` array in
`Experience.tsx`.  The render-handle (`mesh`) is modelled by its identity, a
natural number; the simulator's `focusTarget` and the ray-caster refer to
particles through this identity.  Start-up particles leave `transitionType`
undefined in the source; that is modelled as `0` (which, like `undefined`,
differs from the only value the animation loop tests for, `1`). -/
structure Particle where
  mesh : Nat
  type : ParticleType
  treePos : Vec3
  scatterPos : Vec3
  spin : Vec3
  baseScale : ℚ
  isPhoto : Bool
  transitionType : Nat
deriving DecidableEq, Repr

/-- The mutable simulation state held in `stateRef.current` in
`Experience.tsx`.  `focusTarget` stores the mesh identity of the focused
particle (`null` becomes `none`).  The source also declares
`targetRotationX`/`targetRotationY` fields but never reads them (the animation
loop recomputes the rotation targets into locals each frame), so they are
omitted. -/
structure SimState where
  mode : AppMode
  handData : HandData
  focusTarget : Option Nat
  particles : List Particle
  rotationX : ℚ
  rotationY : ℚ
  smoothedPinch : ℚ
deriving DecidableEq, Repr

/-- The initial value of `stateRef.current`: mode `SCATTER`, the neutral hand
sample, no focus target, rotations zero, `smoothedPinch = 0.05`.  The
particle list is filled at scene setup; reachability below starts from the
empty list and lets events populate it. -/
def initState : SimState :=
  { mode := AppMode.SCATTER
    handData := { x := 0.5, y := 0.5, gesture := Gesture.NONE, pinchDistance := 1 }
    focusTarget := none
    particles := []
    rotationX := 0
    rotationY := 0
    smoothedPinch := 0.05 }

/-- The gesture callback `handService.current.onHandData` in `Experience.tsx`
(lines 318-332): store the sample; on `CLOSED` go to `TREE` and clear the
focus target; on `OPEN` go to `SCATTER` and clear the focus target unless the
current mode is `FOCUS` and the sample's pinch distance is at most `0.4`;
otherwise (on `PINCH` or `NONE`) leave mode and focus target unchanged. -/
def onHandData (s : SimState) (data : HandData) : SimState :=
  let s1 := { s with handData := data }
  if data.gesture = Gesture.CLOSED then
    { s1 with mode := AppMode.TREE, focusTarget := none }
  else if data.gesture = Gesture.OPEN then
    if s.mode ≠ AppMode.FOCUS ∨ data.pinchDistance > 0.4 then
      { s1 with mode := AppMode.SCATTER, focusTarget := none }
    else s1
  else s1

/-- The per-frame smoothing of the pinch distance (`Experience.tsx` line 345):
`smoothedPinch += (handData.pinchDistance - smoothedPinch) * 0.1`. -/
def smoothPinchStep (s : SimState) : SimState :=
  { s with smoothedPinch :=
      s.smoothedPinch + (s.handData.pinchDistance - s.smoothedPinch) * 0.1 }

/-- The per-frame whole-field rotation chase (`Experience.tsx` lines 374-377):
targets are derived from the hand position and the actual rotation moves
toward them exponentially, scaled by the frame delta. -/
def rotationStep (delta : ℚ) (s : SimState) : SimState :=
  let targetRotY := (s.handData.x - 0.5) * 3
  let targetRotX := (s.handData.y - 0.5) * 1.5
  { s with
      rotationY := s.rotationY + (targetRotY - s.rotationY) * 2.5 * delta
      rotationX := s.rotationX + (targetRotX - s.rotationX) * 2.5 * delta }

/-- The candidate set handed to the ray-caster (`Experience.tsx` line 409):
the render-handles of exactly the particles whose `isPhoto` flag is set. -/
def photoMeshes (ps : List Particle) : List Nat :=
  (ps.filter fun p => p.isPhoto).map fun p => p.mesh

/-- The ray-casting block of the animation loop (`Experience.tsx` lines
407-428).  The external ray-intersection test is abstracted by `rayHits`: the
mesh identities of the particles the cursor ray geometrically intersects,
nearest first.  `intersectObjects(photos, true)` restricts those hits to the
subtrees of the photo candidates, modelled by filtering `rayHits` to
`photoMeshes`; the source's parent-walk then resolves a hit child (frame or
invisible hit-volume) back to its root photo mesh, so hits are modelled
directly at root-mesh granularity.  The block runs only when the gesture is
`PINCH` and no focus target is set; on a resolved hit it assigns the focus
target and the `FOCUS` mode together. -/
def raycastStep (rayHits : List Nat) (s : SimState) : SimState :=
  if s.handData.gesture = Gesture.PINCH ∧ s.focusTarget = none then
    match rayHits.filter (fun m => decide (m ∈ photoMeshes s.particles)) with
    | [] => s
    | m :: _ =>
      match s.particles.find? (fun p => p.mesh = m) with
      | some p => { s with mode := AppMode.FOCUS, focusTarget := some p.mesh }
      | none => s
  else s

/-- One animation-loop tick's worth of state mutation (`Experience.tsx`
`animate`): smooth the pinch, chase the rotation targets, then run the
ray-casting block.  The remaining per-particle work of the tick only writes
render transforms, not `stateRef` fields. -/
def tick (delta : ℚ) (rayHits : List Nat) (s : SimState) : SimState :=
  raycastStep rayHits (rotationStep delta (smoothPinchStep s))

/-- `THREE.MathUtils.clamp(value, lo, hi) = Math.max(lo, Math.min(hi, value))`. -/
def clampQ (value lo hi : ℚ) : ℚ := max lo (min hi value)

/-- The focus-target scale computation (`Experience.tsx` lines 458-459):
`zoomFactor = clamp(smoothedPinch, 0.0, 0.4); targetScale = 5 + zoomFactor * 12`. -/
def focusTargetScale (pinchVal : ℚ) : ℚ :=
  5 + clampQ pinchVal 0 0.4 * 12

/-- The per-particle target scale chosen by the animation loop
(`Experience.tsx` lines 431-469): it starts at `baseScale`, is left there in
`TREE` and `SCATTER`, and in `FOCUS` becomes `focusTargetScale` for the
focused particle and `0` for every other particle. -/
def particleTargetScale (mode : AppMode) (focusTarget : Option Nat)
    (pinchVal : ℚ) (p : Particle) : ℚ :=
  match mode with
  | AppMode.FOCUS =>
    if focusTarget = some p.mesh then focusTargetScale pinchVal else 0
  | _ => p.baseScale

/-- `THREE.MathUtils.lerp(x, y, t) = (1 - t) * x + t * y`, the interpolation
primitive the animation loop applies to positions and scales each frame. -/
def lerp (x y t : ℚ) : ℚ := (1 - t) * x + t * y

/-- Repeated application of the per-frame interpolation toward a constant
target with a constant combined step `k = rate * delta`
(`Experience.tsx` lines 472-477). -/
def lerpIter (target k c0 : ℚ) : Nat → ℚ
  | 0 => c0
  | n + 1 => lerp (lerpIter target k c0 n) target k

/-- The display-rectangle computation of the photo-upload effect
(`Experience.tsx` lines 562-568): `w = 3, h = 3 / aspect`, and when
`aspect < 1` instead `h = 3, w = 3 * aspect`.  Returns `(w, h)`. -/
def computeDims (aspect : ℚ) : ℚ × ℚ :=
  if aspect < 1 then (3 * aspect, 3) else (3, 3 / aspect)

/-- Outcome of loading one uploaded image URL: the browser fires `onload`
with intrinsic dimensions for a decodable image, and never fires it for a
malformed one (the source installs no `onerror` handler, so a corrupt image
simply produces nothing and raises no fault). -/
inductive ImageResult
  | ok (width height : ℚ)
  | corrupt
deriving DecidableEq, Repr

/-- Whether an image decoded successfully. -/
def ImageResult.isOk : ImageResult → Bool
  | ImageResult.ok _ _ => true
  | ImageResult.corrupt => false

/-- The randomized draws performed while building one photo particle: the
tree slot computed in the `add-photo` handler, the scatter-shell point the
mesh is placed at before dispatch, the spin vector and the transition
variant. -/
structure PhotoDraw where
  treePos : Vec3
  scatterPos : Vec3
  spin : Vec3
  transitionType : Nat
deriving DecidableEq, Repr

/-- The particle record built by the `add-photo` handler (`Experience.tsx`
lines 525-534): type `PHOTO`, `baseScale = 1`, `isPhoto = true`, with
`scatterPos` taken from the mesh position assigned before dispatch. -/
def mkPhotoParticle (meshId : Nat) (d : PhotoDraw) : Particle :=
  { mesh := meshId
    type := ParticleType.PHOTO
    treePos := d.treePos
    scatterPos := d.scatterPos
    spin := d.spin
    baseScale := 1
    isPhoto := true
    transitionType := d.transitionType }

/-- Ingestion of a single uploaded image (`Experience.tsx` lines 554-611 and
the `add-photo` handler, lines 514-546): a decodable image builds a mesh and
dispatches `add-photo`, whose handler appends one interactive particle
provided the particle list is nonempty (the handler parents the new mesh
under the first particle's parent, which exists for every start-up particle
since all are added to `mainGroup` at creation); a corrupt image never fires
`onload` and changes nothing. -/
def ingestOne (meshId : Nat) (img : ImageResult) (d : PhotoDraw)
    (s : SimState) : SimState :=
  match img with
  | ImageResult.corrupt => s
  | ImageResult.ok _ _ =>
    if 0 < s.particles.length then
      { s with particles := s.particles ++ [mkPhotoParticle meshId d] }
    else s

/-- Ingestion of a batch of uploaded images in upload order, assigning fresh
mesh identities consecutively from `meshId`. -/
def ingestBatch (meshId : Nat) (batch : List (ImageResult × PhotoDraw))
    (s : SimState) : SimState :=
  match batch with
  | [] => s
  | (img, d) :: rest => ingestBatch (meshId + 1) rest (ingestOne meshId img d s)

/-- One normalized hand landmark, from the hand-tracking service. -/
structure Landmark where
  x : ℚ
  y : ℚ
deriving DecidableEq, Repr

/-- The landmarks `processResult` reads: wrist (index 0), thumb tip (4),
index tip (8), middle tip (12), ring tip (16), pinky tip (20). -/
structure Landmarks where
  wrist : Landmark
  thumbTip : Landmark
  indexTip : Landmark
  middleTip : Landmark
  ringTip : Landmark
  pinkyTip : Landmark
deriving DecidableEq, Repr

/-- Squared Euclidean distance between two landmarks; the square of the
source's `Math.hypot(a.x - b.x, a.y - b.y)`. -/
def distSq (a b : Landmark) : ℚ := (a.x - b.x) ^ 2 + (a.y - b.y) ^ 2

/-- Squared thumb-to-index pinch distance (`pinchDist` in `processResult`). -/
def pinchDistSq (lm : Landmarks) : ℚ := distSq lm.indexTip lm.thumbTip

/-- The folded-fingertip count of `processResult` (hand-tracking service,
lines 71-76): how many of the four non-thumb fingertips lie strictly within
`0.15` normalized units of the wrist (compared in squared form). -/
def foldedCount (lm : Landmarks) : Nat :=
  ([lm.indexTip, lm.middleTip, lm.ringTip, lm.pinkyTip].filter
    fun f => decide (distSq f lm.wrist < 0.15 ^ 2)).length

/-- Gesture classification of `processResult` (hand-tracking service, lines
78-83): default `OPEN`, overridden to `CLOSED` when at least three fingertips
are folded, else to `PINCH` when the pinch distance is below `0.05`. -/
def classifyGesture (lm : Landmarks) : Gesture :=
  if 3 ≤ foldedCount lm then Gesture.CLOSED
  else if pinchDistSq lm < 0.05 ^ 2 then Gesture.PINCH
  else Gesture.OPEN

/-- The sample emitted by the hand-tracking service, with the pinch distance
carried as its square (the source emits `Math.hypot(...)`, whose comparisons
against nonnegative thresholds coincide with squared comparisons). -/
structure RawSample where
  x : ℚ
  y : ℚ
  gesture : Gesture
  pinchDistanceSq : ℚ
deriving DecidableEq, Repr

/-- `processResult` of the hand-tracking service (lines 52-95): with a
detected hand, emit the mirrored index-tip position, the classified gesture
and the pinch distance; with no hand, emit the fixed neutral sample
`x = 0.5, y = 0.5, gesture = NONE, pinchDistance = 1` (whose square is `1`). -/
def processResult (r : Option Landmarks) : RawSample :=
  match r with
  | some lm =>
    { x := 1 - lm.indexTip.x
      y := lm.indexTip.y
      gesture := classifyGesture lm
      pinchDistanceSq := pinchDistSq lm }
  | none => { x := 0.5, y := 0.5, gesture := Gesture.NONE, pinchDistanceSq := 1 }

/-- Events that mutate the simulation state: a gesture-callback delivery, an
animation-loop tick (with its frame delta and the ray-intersection outcome
supplied by the render backend), the scene-setup assignment of the
procedurally built particle list (`stateRef.current.particles = particles`,
`Experience.tsx` line 303), and the asynchronous completion of one photo
ingestion (`Experience.tsx` lines 514-546 and 554-611), which may land at an
arbitrary point of the event stream. -/
inductive Event
  | sample (data : HandData)
  | frame (delta : ℚ) (rayHits : List Nat)
  | setup (ps : List Particle)
  | photo (meshId : Nat) (img : ImageResult) (d : PhotoDraw)

/-- Apply one event to the simulation state. -/
def stepEvent : Event → SimState → SimState
  | Event.sample d, s => onHandData s d
  | Event.frame delta rayHits, s => tick delta rayHits s
  | Event.setup ps, s => { s with particles := ps }
  | Event.photo meshId img d, s => ingestOne meshId img d s

/-- The states reachable from the initial state by any sequence of events. -/
inductive Reachable : SimState → Prop
  | init : Reachable initState
  | step (e : Event) {s : SimState} : Reachable s → Reachable (stepEvent e s)

/-- The focus invariant: a focus target is set exactly when the mode is
`FOCUS`. -/
def FocusInv (s : SimState) : Prop :=
  s.focusTarget.isSome ↔ s.mode = AppMode.FOCUS

/-- A decorative start-up particle used as a concrete test input. -/
def decorParticle : Particle :=
  { mesh := 0
    type := ParticleType.SPHERE
    treePos := { x := 1, y := 2, z := 0 }
    scatterPos := { x := 14, y := 0, z := 0 }
    spin := { x := 0.01, y := 0.01, z := 0 }
    baseScale := 1
    isPhoto := false
    transitionType := 0 }

/-- An interactive photo particle used as a concrete test input. -/
def photoParticle : Particle :=
  mkPhotoParticle 1
    { treePos := { x := 3, y := 0, z := 0 }
      scatterPos := { x := 22, y := 5, z := 0 }
      spin := { x := 0.01, y := -0.01, z := 0 }
      transitionType := 1 }

/-- A concrete state in `FOCUS` mode holding the photo particle as focus
target, with a `PINCH` sample latched. -/
def sFocus : SimState :=
  { mode := AppMode.FOCUS
    handData := { x := 0.5, y := 0.5, gesture := Gesture.PINCH, pinchDistance := 0.03 }
    focusTarget := some 1
    particles := [decorParticle, photoParticle]
    rotationX := 0
    rotationY := 0
    smoothedPinch := 0.3 }

/-- A concrete state in `SCATTER` mode with a `PINCH` sample latched and no
focus target. -/
def sPinch : SimState :=
  { mode := AppMode.SCATTER
    handData := { x := 0.5, y := 0.5, gesture := Gesture.PINCH, pinchDistance := 0.03 }
    focusTarget := none
    particles := [decorParticle, photoParticle]
    rotationX := 0
    rotationY := 0
    smoothedPinch := 0.3 }

/-- An `OPEN` sample with pinch distance `0.3` (inside the hysteresis band). -/
def openSample03 : HandData :=
  { x := 0.5, y := 0.5, gesture := Gesture.OPEN, pinchDistance := 0.3 }

/-- An `OPEN` sample with pinch distance `0.5` (above the hysteresis band). -/
def openSample05 : HandData :=
  { x := 0.5, y := 0.5, gesture := Gesture.OPEN, pinchDistance := 0.5 }

/-- A `CLOSED` sample. -/
def closedSample : HandData :=
  { x := 0.5, y := 0.5, gesture := Gesture.CLOSED, pinchDistance := 0.2 }

theorem smoothPinchStep_mode (s : SimState) : (smoothPinchStep s).mode = s.mode := rfl

theorem smoothPinchStep_focusTarget (s : SimState) :
    (smoothPinchStep s).focusTarget = s.focusTarget := rfl

theorem rotationStep_mode (delta : ℚ) (s : SimState) :
    (rotationStep delta s).mode = s.mode := rfl

theorem rotationStep_focusTarget (delta : ℚ) (s : SimState) :
    (rotationStep delta s).focusTarget = s.focusTarget := rfl

theorem onHandData_preserves_inv (s : SimState) (d : HandData) (h : FocusInv s) :
    FocusInv (onHandData s d) := by
  unfold FocusInv onHandData at *
  split_ifs <;> simp_all

theorem raycastStep_preserves_inv (rayHits : List Nat) (s : SimState)
    (h : FocusInv s) : FocusInv (raycastStep rayHits s) := by
  unfold FocusInv raycastStep at *
  split_ifs with hg
  · split
    · exact h
    · split
      · simp
      · exact h
  · exact h

theorem ingestOne_mode (meshId : Nat) (img : ImageResult) (d : PhotoDraw)
    (s : SimState) : (ingestOne meshId img d s).mode = s.mode := by
  cases img with
  | corrupt => rfl
  | ok w ht =>
    rw [ingestOne]
    split_ifs <;> rfl

theorem ingestOne_focusTarget (meshId : Nat) (img : ImageResult) (d : PhotoDraw)
    (s : SimState) : (ingestOne meshId img d s).focusTarget = s.focusTarget := by
  cases img with
  | corrupt => rfl
  | ok w ht =>
    rw [ingestOne]
    split_ifs <;> rfl

theorem stepEvent_preserves_inv (e : Event) (s : SimState) (h : FocusInv s) :
    FocusInv (stepEvent e s) := by
  cases e with
  | sample d => exact onHandData_preserves_inv s d h
  | frame delta rayHits =>
    refine raycastStep_preserves_inv rayHits _ ?_
    unfold FocusInv at *
    rw [rotationStep_mode, rotationStep_focusTarget, smoothPinchStep_mode,
      smoothPinchStep_focusTarget]
    exact h
  | setup ps => exact h
  | photo meshId img d =>
    unfold FocusInv at *
    show (ingestOne meshId img d s).focusTarget.isSome
        ↔ (ingestOne meshId img d s).mode = AppMode.FOCUS
    rw [ingestOne_mode, ingestOne_focusTarget]
    exact h

/-- A `PINCH` sample used to drive the concrete `FOCUS`-entry trace. -/
def pinchSample : HandData :=
  { x := 0.5, y := 0.5, gesture := Gesture.PINCH, pinchDistance := 0.03 }

/-- The reachability model is not vacuous about `FOCUS`: after scene setup
with a decorative and a photo particle, a `PINCH` sample and a tick whose ray
hits the photo particle's mesh, the reachable state is in `FOCUS` mode with
that particle as focus target. -/
theorem focus_entry_demo :
    (stepEvent (Event.frame 0.01 [1])
      (stepEvent (Event.sample pinchSample)
        (stepEvent (Event.setup [decorParticle, photoParticle]) initState))).mode
        = AppMode.FOCUS ∧
    (stepEvent (Event.frame 0.01 [1])
      (stepEvent (Event.sample pinchSample)
        (stepEvent (Event.setup [decorParticle, photoParticle]) initState))).focusTarget
        = some 1 :=
  ⟨rfl, rfl⟩

/-- C2: in every reachable simulation state the focus target is present if
and only if the mode is `FOCUS`; every operation — the gesture callback on
any sample, the per-tick selection resolution, scene setup and photo
ingestion — preserves this, assigning or clearing the focus target in the
same step as the corresponding mode change. -/
theorem focus_target_iff_focus_mode (s : SimState) (h : Reachable s) :
    FocusInv s := by
  induction h with
  | init => simp [FocusInv, initState]
  | step e hr ih => exact stepEvent_preserves_inv e _ ih

/-- Witness for C2 at the concrete reachable state of the `FOCUS`-entry
trace: setup, then a `PINCH` sample, then a tick whose ray hits the photo
particle, landing in `FOCUS` with the target set. -/
theorem focus_target_iff_focus_mode_witness :
    FocusInv (stepEvent (Event.frame 0.01 [1])
      (stepEvent (Event.sample pinchSample)
        (stepEvent (Event.setup [decorParticle, photoParticle]) initState))) :=
  focus_target_iff_focus_mode _
    (Reachable.step _ (Reachable.step _ (Reachable.step _ Reachable.init)))

/-- C3: from every state, a `CLOSED` sample drives the state machine to mode
`TREE` with the focus target cleared; the `CLOSED` branch is tested first in
the callback, so it takes priority over every other rule for that sample. -/
theorem closed_forces_tree (s : SimState) (data : HandData)
    (h : data.gesture = Gesture.CLOSED) :
    (onHandData s data).mode = AppMode.TREE ∧
    (onHandData s data).focusTarget = none := by
  simp [onHandData, h]

/-- Witness for C3: a `CLOSED` sample applied to a `FOCUS` state with a focus
target set lands in `TREE` with no focus target. -/
theorem closed_forces_tree_witness :
    (onHandData sFocus closedSample).mode = AppMode.TREE ∧
    (onHandData sFocus closedSample).focusTarget = none :=
  closed_forces_tree sFocus closedSample rfl

/-- C4: an `OPEN` sample transitions to `SCATTER` and clears the focus target
unless the current mode is `FOCUS` and the sample's pinch distance is at most
`0.4`, in which case mode and focus target are unchanged. -/
theorem open_hysteresis (s : SimState) (data : HandData)
    (h : data.gesture = Gesture.OPEN) :
    ((s.mode = AppMode.FOCUS ∧ data.pinchDistance ≤ 0.4) →
      (onHandData s data).mode = s.mode ∧
      (onHandData s data).focusTarget = s.focusTarget) ∧
    ((s.mode ≠ AppMode.FOCUS ∨ 0.4 < data.pinchDistance) →
      (onHandData s data).mode = AppMode.SCATTER ∧
      (onHandData s data).focusTarget = none) := by
  constructor
  · rintro ⟨hm, hp⟩
    simp [onHandData, h, hm, not_lt.mpr hp]
  · intro hcase
    simp [onHandData, h, hcase]

/-- Witness for C4: from the concrete `FOCUS` state, an `OPEN` sample with
pinch distance `0.3` keeps `FOCUS` and the focus target, while one with pinch
distance `0.5` yields `SCATTER` with the focus target cleared. -/
theorem open_hysteresis_witness :
    ((onHandData sFocus openSample03).mode = AppMode.FOCUS ∧
     (onHandData sFocus openSample03).focusTarget = some 1) ∧
    ((onHandData sFocus openSample05).mode = AppMode.SCATTER ∧
     (onHandData sFocus openSample05).focusTarget = none) := by
  have h3 := (open_hysteresis sFocus openSample03 rfl).1
    ⟨rfl, by norm_num [openSample03]⟩
  have h5 := (open_hysteresis sFocus openSample05 rfl).2
    (Or.inr (by norm_num [openSample05]))
  exact ⟨⟨h3.1, h3.2⟩, h5⟩

/-- C5: hit-testing considers only the meshes of particles with the
interactive (photo) flag set; a `PINCH` whose ray intersects only
non-interactive particles leaves the state unchanged (no `FOCUS` transition,
no focus target), and a `PINCH` whose ray intersects nothing is a no-op. -/
theorem pinch_hit_testing_interactive_only (s : SimState) (rayHits : List Nat)
    (_hg : s.handData.gesture = Gesture.PINCH) :
    (∀ m ∈ photoMeshes s.particles,
        ∃ p ∈ s.particles, p.mesh = m ∧ p.isPhoto = true) ∧
    ((∀ m ∈ rayHits, ∀ p ∈ s.particles, p.mesh = m → p.isPhoto = false) →
      raycastStep rayHits s = s) ∧
    raycastStep [] s = s := by
  refine ⟨?_, ?_, ?_⟩
  · intro m hm
    simp only [photoMeshes, List.mem_map, List.mem_filter] at hm
    obtain ⟨p, ⟨hp, hphoto⟩, rfl⟩ := hm
    exact ⟨p, hp, rfl, hphoto⟩
  · intro hdec
    have hnil :
        rayHits.filter (fun m => decide (m ∈ photoMeshes s.particles)) = [] := by
      rw [List.filter_eq_nil_iff]
      intro m hm
      simp only [decide_eq_true_eq]
      intro hmem
      simp only [photoMeshes, List.mem_map, List.mem_filter] at hmem
      obtain ⟨p, ⟨hp, hphoto⟩, rfl⟩ := hmem
      have hfalse := hdec _ hm p hp rfl
      rw [hfalse] at hphoto
      exact Bool.false_ne_true hphoto
    unfold raycastStep
    rw [hnil]
    split_ifs <;> rfl
  · unfold raycastStep
    split_ifs <;> rfl

/-- Witness for C5: in the concrete pinching state, a ray that hits only the
decorative particle's mesh changes nothing. -/
theorem pinch_hit_testing_interactive_only_witness :
    raycastStep [0] sPinch = sPinch :=
  (pinch_hit_testing_interactive_only sPinch [0] rfl).2.1 (by decide)

/-- C6: while a focus target is already set (mode `FOCUS`), the ray-casting
block never fires: any further `PINCH` processing leaves the whole state —
in particular mode and focus target — unchanged, whatever the ray hits. -/
theorem pinch_idempotent_when_focused (s : SimState) (rayHits : List Nat)
    (_hm : s.mode = AppMode.FOCUS) (hf : s.focusTarget ≠ none) :
    raycastStep rayHits s = s := by
  unfold raycastStep
  rw [if_neg]
  rintro ⟨-, h2⟩
  exact hf h2

/-- Witness for C6: in the concrete focused state, a ray hitting the photo
particle's own mesh changes nothing. -/
theorem pinch_idempotent_when_focused_witness :
    raycastStep [1] sFocus = sFocus :=
  pinch_idempotent_when_focused sFocus [1] rfl (by decide)

theorem clampQ_at_point_four : clampQ 0.4 0 0.4 = 0.4 := by
  rw [clampQ, min_self, max_eq_right]
  norm_num

/-- C1 counterexample: at full pinch aperture (smoothed pinch `0.4`) the
focused photo particle's target scale is `49/5 = 9.8` — the formula is
`5 + clamp * 12` with the fixed base `5`, not `baseScale + boost` — so it is
not `baseScale + 12 = 13`, and the boost over the formula's own base is
`24/5 = 4.8`, not `12`. -/
theorem focus_scale_not_base_plus_twelve :
    particleTargetScale AppMode.FOCUS (some photoParticle.mesh) 0.4 photoParticle
        = 49 / 5 ∧
    photoParticle.baseScale + 12 = 13 ∧
    (49 / 5 : ℚ) ≠ 13 ∧
    (49 / 5 : ℚ) - 5 ≠ 12 := by
  refine ⟨?_, by norm_num [photoParticle, mkPhotoParticle], by norm_num, by norm_num⟩
  show focusTargetScale 0.4 = 49 / 5
  rw [focusTargetScale, clampQ_at_point_four]
  norm_num

/-- C1 amended: in `FOCUS` mode the focus-target particle's target scale is
the fixed base `5` plus `12` times the smoothed pinch distance clamped to
`[0, 0.4]`, independent of the particle's `baseScale`: the scale is `5` at
clamped pinch `0`, `5 + 24/5` at pinch `0.4` or above, and `5 + 12 * pinch`
linearly in between. -/
theorem focus_scale_formula (p : Particle) (pinchVal : ℚ) :
    particleTargetScale AppMode.FOCUS (some p.mesh) pinchVal p
        = 5 + 12 * clampQ pinchVal 0 0.4 ∧
    (pinchVal ≤ 0 →
      particleTargetScale AppMode.FOCUS (some p.mesh) pinchVal p = 5) ∧
    (0.4 ≤ pinchVal →
      particleTargetScale AppMode.FOCUS (some p.mesh) pinchVal p = 5 + 24 / 5) ∧
    (0 ≤ pinchVal → pinchVal ≤ 0.4 →
      particleTargetScale AppMode.FOCUS (some p.mesh) pinchVal p
          = 5 + 12 * pinchVal) := by
  have hbase : particleTargetScale AppMode.FOCUS (some p.mesh) pinchVal p
      = focusTargetScale pinchVal := by
    simp [particleTargetScale]
  refine ⟨?_, ?_, ?_, ?_⟩
  · rw [hbase, focusTargetScale]
    ring
  · intro h0
    rw [hbase, focusTargetScale, clampQ,
      min_eq_right (le_trans h0 (by norm_num : (0:ℚ) ≤ 0.4)), max_eq_left h0]
    ring
  · intro h4
    rw [hbase, focusTargetScale, clampQ, min_eq_left h4,
      max_eq_right (by norm_num : (0:ℚ) ≤ 0.4)]
    norm_num
  · intro h0 h4
    rw [hbase, focusTargetScale, clampQ, min_eq_right h4, max_eq_right h0]
    ring

/-- Witness for C1 (amended) at smoothed pinch `0.5`, above the clamp: the
focused photo particle's target scale is `5 + 24/5`. -/
theorem focus_scale_formula_witness :
    particleTargetScale AppMode.FOCUS (some photoParticle.mesh) 0.5 photoParticle
        = 5 + 24 / 5 :=
  (focus_scale_formula photoParticle 0.5).2.2.1 (by norm_num)

/-- C7: ingesting a batch with the partial-failure semantics of the upload
effect adds exactly one interactive particle per decodable image and none for
a corrupt one (whose `onload` never fires and which raises no fault), with all
other images of the batch unaffected; every particle of the resulting
collection is either an original one or interactive. -/
theorem ingest_partial_failure (meshId : Nat)
    (batch : List (ImageResult × PhotoDraw)) (s : SimState)
    (hne : 0 < s.particles.length) :
    (ingestBatch meshId batch s).particles.length
        = s.particles.length + (batch.filter fun b => b.1.isOk).length ∧
    ∀ p ∈ (ingestBatch meshId batch s).particles,
      p ∈ s.particles ∨ p.isPhoto = true := by
  induction batch generalizing meshId s with
  | nil =>
    exact ⟨by simp [ingestBatch], fun p hp => Or.inl hp⟩
  | cons head rest ih =>
    obtain ⟨img, d⟩ := head
    cases img with
    | corrupt =>
      have h := ih (meshId + 1) s hne
      simpa [ingestBatch, ingestOne, ImageResult.isOk] using h
    | ok w ht =>
      have hstep : ingestBatch meshId ((ImageResult.ok w ht, d) :: rest) s
          = ingestBatch (meshId + 1) rest
              { s with particles := s.particles ++ [mkPhotoParticle meshId d] } := by
        simp [ingestBatch, ingestOne, if_pos hne]
      have hne2 :
          0 < ({ s with particles := s.particles ++ [mkPhotoParticle meshId d] }
            : SimState).particles.length := by
        simp
      have hih := ih (meshId + 1)
        { s with particles := s.particles ++ [mkPhotoParticle meshId d] } hne2
      constructor
      · rw [hstep, hih.1]
        simp [ImageResult.isOk]
        omega
      · intro p hp
        rw [hstep] at hp
        rcases hih.2 p hp with hin | hphoto
        · simp only [List.mem_append, List.mem_singleton] at hin
          rcases hin with hin | rfl
          · exact Or.inl hin
          · exact Or.inr rfl
        · exact Or.inr hphoto

/-- A concrete one-particle state for the ingestion witness. -/
def state1 : SimState :=
  { initState with particles := [decorParticle] }

/-- A fixed draw for photo particles in the ingestion witness. -/
def draw0 : PhotoDraw :=
  { treePos := { x := 0, y := 0, z := 0 }
    scatterPos := { x := 25, y := 0, z := 0 }
    spin := { x := 0, y := 0, z := 0 }
    transitionType := 0 }

/-- A batch of five decodable images and one corrupt image. -/
def batch6 : List (ImageResult × PhotoDraw) :=
  [(ImageResult.ok 4 3, draw0), (ImageResult.ok 3 4, draw0),
   (ImageResult.ok 1 1, draw0), (ImageResult.corrupt, draw0),
   (ImageResult.ok 16 9, draw0), (ImageResult.ok 2 3, draw0)]

/-- Witness for C7: the five-valid-one-corrupt batch grows the one-particle
collection to exactly six particles (five new interactive ones). -/
theorem ingest_partial_failure_witness :
    (ingestBatch 100 batch6 state1).particles.length = 6 := by
  rw [(ingest_partial_failure 100 batch6 state1 (by simp [state1])).1]
  simp [state1, batch6, ImageResult.isOk]

/-- C8 counterexample: for aspect ratio `2` the computed display rectangle is
`(w, h) = (3, 3/2)`: its short side is `3/2`, not `3`, and its long side is
`3`, not `3 * max 2 (1/2) = 6`. -/
theorem dims_short_side_not_three :
    computeDims 2 = (3, 3 / 2) ∧
    min (3 : ℚ) (3 / 2) = 3 / 2 ∧ (3 / 2 : ℚ) ≠ 3 ∧
    max (3 : ℚ) (3 / 2) = 3 ∧ (3 : ℚ) ≠ 3 * max 2 (1 / 2 : ℚ) := by
  refine ⟨?_, ?_, ?_, ?_, ?_⟩
  · rw [computeDims, if_neg (by norm_num)]
  · exact min_eq_right (by norm_num)
  · norm_num
  · exact max_eq_left (by norm_num)
  · rw [max_eq_left (by norm_num : (1 : ℚ) / 2 ≤ 2)]
    norm_num

/-- C8 amended: for every aspect ratio `a > 0` the display rectangle has its
long side equal to exactly `3` units and its short side equal to
`3 * min a (1/a)`, and it preserves the aspect ratio (`w / h = a`). -/
theorem dims_long_side_three (a : ℚ) (ha : 0 < a) :
    max (computeDims a).1 (computeDims a).2 = 3 ∧
    min (computeDims a).1 (computeDims a).2 = 3 * min a (1 / a) ∧
    (computeDims a).1 / (computeDims a).2 = a := by
  rcases lt_or_le a 1 with h1 | h1
  · have hd : computeDims a = (3 * a, 3) := by rw [computeDims, if_pos h1]
    have h3a : 3 * a ≤ 3 := by nlinarith
    have hinv : a ≤ 1 / a := by
      rw [le_div_iff₀ ha]
      nlinarith
    rw [hd]
    refine ⟨max_eq_right h3a, ?_, by norm_num⟩
    rw [min_eq_left h3a, min_eq_left hinv]
  · have hd : computeDims a = (3, 3 / a) := by rw [computeDims, if_neg (not_lt.mpr h1)]
    have hdiv : 3 / a ≤ 3 := div_le_self (by norm_num) h1
    have hinv : 1 / a ≤ a := by
      rw [div_le_iff₀ ha]
      nlinarith
    have hne : a ≠ 0 := ne_of_gt ha
    rw [hd]
    refine ⟨max_eq_left hdiv, ?_, ?_⟩
    · rw [min_eq_right hdiv, min_eq_right hinv]
      rw [mul_one_div]
    · field_simp

/-- Witness for C8 (amended) at aspect ratio `2`: the long side is `3`. -/
theorem dims_long_side_three_witness :
    max (computeDims 2).1 (computeDims 2).2 = 3 :=
  (dims_long_side_three 2 (by norm_num)).1

theorem lerp_step_error (target k c : ℚ) :
    target - lerp c target k = (1 - k) * (target - c) := by
  rw [lerp]
  ring

theorem lerp_error_identity (target k c0 : ℚ) (n : Nat) :
    target - lerpIter target k c0 n = (target - c0) * (1 - k) ^ n := by
  induction n with
  | zero => simp [lerpIter]
  | succ n ih =>
    show target - lerp (lerpIter target k c0 n) target k = _
    rw [lerp_step_error, ih]
    ring

/-- C9: under a constant target and a constant combined interpolation step
`k = rate * dt` in `(0, 1]`, the per-frame update
`current := lerp(current, target, k) = current + (target - current) * k`
scales the signed error by the factor `1 - k` each tick, so the absolute
error never increases (no overshoot past the target, no divergence) and
drops below every positive bound after finitely many ticks. -/
theorem lerp_convergence (target k c0 : ℚ) (hk0 : 0 < k) (hk1 : k ≤ 1) :
    (∀ n, target - lerpIter target k c0 n = (target - c0) * (1 - k) ^ n) ∧
    (∀ n, |target - lerpIter target k c0 (n + 1)|
        ≤ |target - lerpIter target k c0 n|) ∧
    (∀ ε : ℚ, 0 < ε →
      ∃ N, ∀ n, N ≤ n → |target - lerpIter target k c0 n| < ε) := by
  have hr0 : (0 : ℚ) ≤ 1 - k := by linarith
  have hr1 : 1 - k < 1 := by linarith
  have hid := lerp_error_identity target k c0
  refine ⟨hid, ?_, ?_⟩
  · intro n
    have hstep : target - lerpIter target k c0 (n + 1)
        = (1 - k) * (target - lerpIter target k c0 n) := by
      show target - lerp (lerpIter target k c0 n) target k = _
      exact lerp_step_error target k _
    rw [hstep, abs_mul, abs_of_nonneg hr0]
    calc (1 - k) * |target - lerpIter target k c0 n|
        ≤ 1 * |target - lerpIter target k c0 n| :=
          mul_le_mul_of_nonneg_right (by linarith) (abs_nonneg _)
      _ = |target - lerpIter target k c0 n| := one_mul _
  · intro ε hε
    have hDnn : (0 : ℚ) ≤ |target - c0| := abs_nonneg _
    obtain ⟨N, hN⟩ :=
      exists_pow_lt_of_lt_one (x := ε / (|target - c0| + 1)) (by positivity) hr1
    refine ⟨N, fun n hn => ?_⟩
    have habs : |target - lerpIter target k c0 n|
        = |target - c0| * (1 - k) ^ n := by
      rw [hid n, abs_mul, abs_pow, abs_of_nonneg hr0]
    rw [habs]
    have h1 : (1 - k) ^ n ≤ (1 - k) ^ N :=
      pow_le_pow_of_le_one hr0 (le_of_lt hr1) hn
    have h2 : |target - c0| * (1 - k) ^ n ≤ (|target - c0| + 1) * (1 - k) ^ N :=
      mul_le_mul (by linarith) h1 (pow_nonneg hr0 n) (by linarith)
    have h3 : (|target - c0| + 1) * (1 - k) ^ N
        < (|target - c0| + 1) * (ε / (|target - c0| + 1)) :=
      mul_lt_mul_of_pos_left hN (by linarith)
    have h4 : (|target - c0| + 1) * (ε / (|target - c0| + 1)) = ε := by
      field_simp
    linarith

/-- Witness for C9 with target `1`, step `1/2`, start `0`: the error after one
tick is no larger than the initial error. -/
theorem lerp_convergence_witness :
    |(1 : ℚ) - lerpIter 1 (1 / 2) 0 (0 + 1)| ≤ |(1 : ℚ) - lerpIter 1 (1 / 2) 0 0| :=
  (lerp_convergence 1 (1 / 2) 0 (by norm_num) (by norm_num)).2.1 0

/-- C10: with a detected hand the emitted gesture is `CLOSED` whenever at
least three of the four non-thumb fingertips lie within `0.15` normalized
units of the wrist, regardless of pinch distance; `PINCH` only when not
`CLOSED` and the thumb-to-index distance is below `0.05`; otherwise `OPEN`;
`NONE` is never emitted for a detected hand and is emitted exactly for the
no-hand case, whose sample is the fixed neutral
`x = 0.5, y = 0.5, pinchDistance = 1`. -/
theorem gesture_priority (lm : Landmarks) :
    (3 ≤ foldedCount lm → classifyGesture lm = Gesture.CLOSED) ∧
    (foldedCount lm < 3 → pinchDistSq lm < 0.05 ^ 2 →
      classifyGesture lm = Gesture.PINCH) ∧
    (foldedCount lm < 3 → ¬pinchDistSq lm < 0.05 ^ 2 →
      classifyGesture lm = Gesture.OPEN) ∧
    (processResult (some lm)).gesture = classifyGesture lm ∧
    (processResult (some lm)).gesture ≠ Gesture.NONE ∧
    processResult none
      = { x := 0.5, y := 0.5, gesture := Gesture.NONE, pinchDistanceSq := 1 } := by
  refine ⟨?_, ?_, ?_, rfl, ?_, rfl⟩
  · intro h3
    rw [classifyGesture, if_pos h3]
  · intro h3 hp
    rw [classifyGesture, if_neg (by omega), if_pos hp]
  · intro h3 hp
    rw [classifyGesture, if_neg (by omega), if_neg hp]
  · show classifyGesture lm ≠ Gesture.NONE
    rw [classifyGesture]
    split_ifs <;> simp

/-- A fist: all tracked landmarks coincide at the image center. -/
def lmFist : Landmarks :=
  { wrist := { x := 0.5, y := 0.5 }
    thumbTip := { x := 0.5, y := 0.5 }
    indexTip := { x := 0.5, y := 0.5 }
    middleTip := { x := 0.5, y := 0.5 }
    ringTip := { x := 0.5, y := 0.5 }
    pinkyTip := { x := 0.5, y := 0.5 } }

theorem lmFist_folded : foldedCount lmFist = 4 := by
  have hdec : decide (distSq { x := 0.5, y := 0.5 } { x := 0.5, y := 0.5 }
      < (0.15 : ℚ) ^ 2) = true :=
    decide_eq_true (by norm_num [distSq])
  simp [foldedCount, lmFist, hdec]

/-- Witness for C10: the fist has all four fingertips folded and a pinch
distance of zero (below the pinch threshold), yet `CLOSED` wins over
`PINCH`. -/
theorem gesture_priority_witness :
    pinchDistSq lmFist < 0.05 ^ 2 ∧ classifyGesture lmFist = Gesture.CLOSED := by
  constructor
  · norm_num [pinchDistSq, distSq, lmFist]
  · exact (gesture_priority lmFist).1 (by rw [lmFist_folded]; norm_num)

end Christmas
